import Mathlib

/-!
Verification of `surveillance_notify.go`, an MQTT subscriber that forwards the
`notification` field of every JSON message to Pushover.

The program consists of effectful handlers.  Each handler is embedded as a pure function
from the package-level variables and the answers of the outside world (the `World` record:
JSON decoding, the Pushover call, `os.Hostname`, `os.OpenFile`, the MQTT tokens) to a
`Run`: the sequence of observable calls the handler makes, and the way it ends
(normal return, panic, `os.Exit`).
-/

namespace SurveillanceNotify

/-! ## Go values -/

/-- The dynamic values `encoding/json` stores into an `interface{}`:
`nil`, `bool`, `float64`, `string`, `[]interface{}` and `map[string]interface{}`.
A `float64` is kept as the number literal it was read from; the program never
computes with it. -/
inductive Value where
  | null
  | bool (b : Bool)
  | number (lit : String)
  | str (s : String)
  | arr (xs : List Value)
  | obj (kvs : List (String × Value))

/-- A `map[string]interface{}`, as an association list with distinct keys.
The nil map and the empty map are both `[]`: the program only reads the map. -/
abbrev GoMap := List (String × Value)

/-- The assignment `m[k] = v`. -/
def GoMap.set (m : GoMap) (k : String) (v : Value) : GoMap :=
  m.filter (fun p => p.1 != k) ++ [(k, v)]

/-- The two-valued index expression `v, ok := m[k]`: `none` is `ok == false`. -/
def GoMap.index (m : GoMap) (k : String) : Option Value :=
  m.lookup k

/-- Error values (`error`) met by the program. -/
inductive GoError where
  | jsonSyntaxError
  | jsonUnmarshalTypeError
  | other (msg : String)
  deriving DecidableEq

/-! ## Reference model of `json.Unmarshal(payload, &message)`

`message` has type `map[string]interface{}`.  The decoder works on the bytes of the
payload (as natural numbers below 256).  The recursive functions take fuel; every call
consumes at least one byte of input, so fuel above the length of the input is never
used up.  The theorems on the handlers hold for any decoder (`World.jsonUnmarshal`); this
one serves to run the handlers on concrete payloads. -/

namespace Json

/-- JSON insignificant whitespace: space, tab, carriage return, line feed. -/
def isSpace (c : Nat) : Bool := c == 32 || c == 9 || c == 13 || c == 10

def skipSpace : List Nat → List Nat
  | [] => []
  | c :: cs => if isSpace c then skipSpace cs else c :: cs

def isDigit (c : Nat) : Bool := 48 ≤ c && c ≤ 57

/-- Value of a hexadecimal digit. -/
def hexVal (c : Nat) : Option Nat :=
  if 48 ≤ c && c ≤ 57 then some (c - 48)
  else if 97 ≤ c && c ≤ 102 then some (c - 87)
  else if 65 ≤ c && c ≤ 70 then some (c - 55)
  else none

/-- Four hexadecimal digits (`getu4` without the leading `\u`). -/
def hex4 : List Nat → Option (Nat × List Nat)
  | a :: b :: c :: d :: rest =>
    match hexVal a, hexVal b, hexVal c, hexVal d with
    | some a, some b, some c, some d => some (((a * 16 + b) * 16 + c) * 16 + d, rest)
    | _, _, _, _ => none
  | _ => none

/-- The escape `\uXXXX` at the head of the input (`getu4`). -/
def getu4 : List Nat → Option (Nat × List Nat)
  | 92 :: 117 :: rest => hex4 rest
  | _ => none

/-- The Unicode replacement character U+FFFD. -/
def replacementChar : Char := Char.ofNat 0xFFFD

/-- Lower bound of the second byte of a UTF-8 sequence starting with `b0`. -/
def secondLo (b0 : Nat) : Nat := if b0 == 0xE0 then 0xA0 else if b0 == 0xF0 then 0x90 else 0x80

/-- Upper bound of the second byte of a UTF-8 sequence starting with `b0`. -/
def secondHi (b0 : Nat) : Nat := if b0 == 0xED then 0x9F else if b0 == 0xF4 then 0x8F else 0xBF

def isCont (b : Nat) : Bool := 0x80 ≤ b && b ≤ 0xBF

/-- `utf8.DecodeRune` on a sequence whose first byte `b0` is at least 0x80:
an invalid or truncated encoding yields U+FFFD and consumes one byte. -/
def decodeRune (b0 : Nat) (rest : List Nat) : Char × List Nat :=
  if 0xC2 ≤ b0 && b0 ≤ 0xDF then
    match rest with
    | b1 :: r =>
      if isCont b1 then (Char.ofNat ((b0 % 32) * 64 + b1 % 64), r) else (replacementChar, rest)
    | _ => (replacementChar, rest)
  else if 0xE0 ≤ b0 && b0 ≤ 0xEF then
    match rest with
    | b1 :: b2 :: r =>
      if secondLo b0 ≤ b1 && b1 ≤ secondHi b0 && isCont b2 then
        (Char.ofNat ((b0 % 16) * 4096 + (b1 % 64) * 64 + b2 % 64), r)
      else (replacementChar, rest)
    | _ => (replacementChar, rest)
  else if 0xF0 ≤ b0 && b0 ≤ 0xF4 then
    match rest with
    | b1 :: b2 :: b3 :: r =>
      if secondLo b0 ≤ b1 && b1 ≤ secondHi b0 && isCont b2 && isCont b3 then
        (Char.ofNat ((b0 % 8) * 262144 + (b1 % 64) * 4096 + (b2 % 64) * 64 + b3 % 64), r)
      else (replacementChar, rest)
    | _ => (replacementChar, rest)
  else (replacementChar, rest)

/-- The rune denoted by a `\uXXXX` escape with value `rr`, and the rest of the input:
a surrogate pair is combined, a lone surrogate becomes U+FFFD. -/
def escapedRune (rr : Nat) (rest : List Nat) : Char × List Nat :=
  if 0xD800 ≤ rr && rr < 0xE000 then
    match getu4 rest with
    | some (rr1, rest1) =>
      if rr < 0xDC00 && 0xDC00 ≤ rr1 && rr1 < 0xE000 then
        (Char.ofNat ((rr - 0xD800) * 1024 + (rr1 - 0xDC00) + 0x10000), rest1)
      else (replacementChar, rest)
    | none => (replacementChar, rest)
  else (Char.ofNat rr, rest)

/-- A string literal after its opening quote, decoded (`unquote`): the text and the
input after the closing quote.  Control bytes and unknown escapes are syntax errors;
invalid UTF-8 is replaced by U+FFFD. -/
def scanString : Nat → List Nat → List Char → Option (String × List Nat)
  | 0, _, _ => none
  | _ + 1, [], _ => none
  | fuel + 1, c :: rest, acc =>
    if c == 34 then some (String.mk acc.reverse, rest)
    else if c == 92 then
      match rest with
      | [] => none
      | e :: r =>
        if e == 34 then scanString fuel r (Char.ofNat 34 :: acc)
        else if e == 92 then scanString fuel r (Char.ofNat 92 :: acc)
        else if e == 47 then scanString fuel r (Char.ofNat 47 :: acc)
        else if e == 98 then scanString fuel r (Char.ofNat 8 :: acc)
        else if e == 102 then scanString fuel r (Char.ofNat 12 :: acc)
        else if e == 110 then scanString fuel r (Char.ofNat 10 :: acc)
        else if e == 114 then scanString fuel r (Char.ofNat 13 :: acc)
        else if e == 116 then scanString fuel r (Char.ofNat 9 :: acc)
        else if e == 117 then
          match hex4 r with
          | none => none
          | some (rr, r1) => scanString fuel (escapedRune rr r1).2 ((escapedRune rr r1).1 :: acc)
        else none
    else if c < 32 then none
    else if c < 128 then scanString fuel rest (Char.ofNat c :: acc)
    else scanString fuel (decodeRune c rest).2 ((decodeRune c rest).1 :: acc)

/-- The longest prefix of decimal digits, and the rest. -/
def spanDigits : List Nat → List Nat × List Nat
  | [] => ([], [])
  | c :: cs => if isDigit c then (c :: (spanDigits cs).1, (spanDigits cs).2) else ([], c :: cs)

/-- The natural number written by a list of decimal digits. -/
def digitsVal (ds : List Nat) : Nat := ds.foldl (fun n d => n * 10 + (d - 48)) 0

/-- The exponent `strconv.ParseFloat` reads from a list of decimal digits: it stops
accumulating once the value has reached 10000 (`if e < 10000 { e = e*10 + digit }`). -/
def expVal (ds : List Nat) : Nat :=
  ds.foldl (fun e d => if e < 10000 then e * 10 + (d - 48) else e) 0

/-- The integer part of a number: a single `0`, or a non-zero digit followed by digits. -/
def scanInt : List Nat → Option (List Nat × List Nat)
  | [] => none
  | c :: cs =>
    if c == 48 then some ([c], cs)
    else if isDigit c then some (c :: (spanDigits cs).1, (spanDigits cs).2)
    else none

/-- The optional fraction `.` digits+ of a number. -/
def scanFrac : List Nat → Option (List Nat × List Nat)
  | 46 :: cs =>
    match spanDigits cs with
    | ([], _) => none
    | (ds, rest) => some (ds, rest)
  | cs => some ([], cs)

/-- The optional exponent `e`/`E`, sign, digits+ of a number: its text (without the
letter), whether it is negative, its digits, and the rest. -/
def scanExp : List Nat → Option (List Nat × Bool × List Nat × List Nat)
  | [] => some ([], false, [], [])
  | c :: cs =>
    if c == 101 || c == 69 then
      match cs with
      | [] => none
      | s :: cs1 =>
        if s == 43 || s == 45 then
          match spanDigits cs1 with
          | ([], _) => none
          | (ds, rest) => some (c :: s :: ds, s == 45, ds, rest)
        else
          match spanDigits (s :: cs1) with
          | ([], _) => none
          | (ds, rest) => some (c :: ds, false, ds, rest)
    else some ([], false, [], c :: cs)

/-- Whether `strconv.ParseFloat` reports a range error for a number literal with the
given mantissa digits (integer part and fraction, of which `fracLen` are fraction
digits) and exponent (`exp` as read by `expVal`, negative when `expNeg`): whether the
number rounds to an infinite `float64`.  As in `strconv` (`floatBits`), with the number
written as `0.d₁d₂… * 10 ^ dp` without leading zeros: zero never overflows, `dp > 310`
always does, `dp < -330` never does; in between the number is compared with the midpoint
`2 ^ 1024 - 2 ^ 970` between the largest finite `float64` and `2 ^ 1024`.  The comparison
is on the exact value of the literal, as `strconv` compares it for the 800 digits of
precision it keeps. -/
def overflowsFloat64 (digits : List Nat) (fracLen : Nat) (expNeg : Bool) (exp : Nat) : Bool :=
  let sig := digits.dropWhile (fun d => d == 48)
  let bound := (2 ^ 54 - 1) <<< 970
  let up := if expNeg then 0 else exp
  let down := if expNeg then fracLen + exp else fracLen
  if sig.isEmpty then false
  else if 310 + down < sig.length + up then true
  else if sig.length + up + 330 < down then false
  else if down ≤ up then decide (bound ≤ digitsVal sig * 10 ^ (up - down))
  else decide (bound * 10 ^ (down - up) ≤ digitsVal sig)

/-- A number literal: its text, whether it fits a `float64`, and the rest of the input. -/
def scanNumber (input : List Nat) : Option (String × Bool × List Nat) :=
  let neg := input.head? == some 45
  let body := if neg then input.tail else input
  match scanInt body with
  | none => none
  | some (ip, r1) =>
    match scanFrac r1 with
    | none => none
    | some (fp, r2) =>
      match scanExp r2 with
      | none => none
      | some (etext, eneg, eds, r3) =>
        let text := (if neg then [45] else []) ++ ip ++ (if fp.isEmpty then [] else 46 :: fp) ++ etext
        some (String.mk (text.map Char.ofNat),
              !overflowsFloat64 (ip ++ fp) fp.length eneg (expVal eds), r3)

/-- Removes `lit` from the head of the input. -/
def stripLiteral : List Nat → List Nat → Option (List Nat)
  | [], input => some input
  | _ :: _, [] => none
  | l :: ls, c :: cs => if l == c then stripLiteral ls cs else none

/-- Nesting limit of the decoder (`maxNestingDepth`). -/
def maxNestingDepth : Nat := 10000

mutual
/-- One JSON value at the head of the input (leading whitespace allowed), at nesting
`depth`: the value written, whether every number in it fits a `float64`, and the rest. -/
def parseValue : Nat → Nat → List Nat → Option (Value × Bool × List Nat)
  | 0, _, _ => none
  | fuel + 1, depth, input =>
    match skipSpace input with
    | [] => none
    | c :: rest =>
      if c == 123 then
        if maxNestingDepth ≤ depth then none
        else
          match skipSpace rest with
          | 125 :: r => some (Value.obj [], true, r)
          | _ => parseMembers fuel (depth + 1) rest [] true
      else if c == 91 then
        if maxNestingDepth ≤ depth then none
        else
          match skipSpace rest with
          | 93 :: r => some (Value.arr [], true, r)
          | _ => parseElements fuel (depth + 1) rest [] true
      else if c == 34 then
        match scanString (rest.length + 1) rest [] with
        | none => none
        | some (s, r) => some (Value.str s, true, r)
      else if c == 116 then (stripLiteral [114, 117, 101] rest).map (fun r => (Value.bool true, true, r))
      else if c == 102 then (stripLiteral [97, 108, 115, 101] rest).map (fun r => (Value.bool false, true, r))
      else if c == 110 then (stripLiteral [117, 108, 108] rest).map (fun r => (Value.null, true, r))
      else
        match scanNumber (c :: rest) with
        | none => none
        | some (lit, fits, r) => some (Value.number lit, fits, r)
/-- The members of an object after `{` or `,`, up to and including the closing `}`.
A repeated key overwrites the earlier entry. -/
def parseMembers : Nat → Nat → List Nat → GoMap → Bool → Option (Value × Bool × List Nat)
  | 0, _, _, _, _ => none
  | fuel + 1, depth, input, acc, ok =>
    match skipSpace input with
    | 34 :: r =>
      match scanString (r.length + 1) r [] with
      | none => none
      | some (key, r1) =>
        match skipSpace r1 with
        | 58 :: r2 =>
          match parseValue fuel depth r2 with
          | none => none
          | some (v, okv, r3) =>
            match skipSpace r3 with
            | 44 :: r4 => parseMembers fuel depth r4 (acc.set key v) (ok && okv)
            | 125 :: r4 => some (Value.obj (acc.set key v), ok && okv, r4)
            | _ => none
        | _ => none
    | _ => none
/-- The elements of an array after `[` or `,`, up to and including the closing `]`. -/
def parseElements : Nat → Nat → List Nat → List Value → Bool → Option (Value × Bool × List Nat)
  | 0, _, _, _, _ => none
  | fuel + 1, depth, input, acc, ok =>
    match parseValue fuel depth input with
    | none => none
    | some (v, okv, r) =>
      match skipSpace r with
      | 44 :: r1 => parseElements fuel depth r1 (acc ++ [v]) (ok && okv)
      | 93 :: r1 => some (Value.arr (acc ++ [v]), ok && okv, r1)
      | _ => none
end

/-- The JSON document a payload is, by the grammar of JSON alone: the value written
(a repeated key keeps its last value, as in the decoder), and whether every number in it
fits a `float64`.  It is `none` when the payload is not one well-formed JSON value. -/
def parse (payload : List UInt8) : Option (Value × Bool) :=
  let input := payload.map UInt8.toNat
  match parseValue (input.length + 1) 0 input with
  | none => none
  | some (v, fits, rest) =>
    match skipSpace rest with
    | [] => some (v, fits)
    | _ :: _ => none

/-- Reference model of `json.Unmarshal(payload, &message)` for a nil
`message map[string]interface{}`: the whole payload must be one JSON value
(else a `*json.SyntaxError`); a number outside the `float64` range anywhere in it is a
`*json.UnmarshalTypeError`; otherwise an object fills the map, `null` leaves it nil, and
any other value is a `*json.UnmarshalTypeError`. -/
def unmarshal (payload : List UInt8) : Except GoError GoMap :=
  match parse payload with
  | none => .error .jsonSyntaxError
  | some (v, fits) =>
    if fits then
      match v with
      | .obj m => .ok m
      | .null => .ok []
      | _ => .error .jsonUnmarshalTypeError
    else .error .jsonUnmarshalTypeError

end Json

/-- The bytes of a text (its UTF-8 encoding). -/
def bytes (s : String) : List UInt8 := s.toUTF8.data.toList

/-! ## Data of the program -/

/-- The struct `SurveillanceFlags`. -/
structure SurveillanceFlags where
  hostname : String
  port : Int
  topic : String
  verbose : Bool
  logfile : String
  deriving DecidableEq

/-- Log levels of `go-logging`. -/
inductive Level where
  | CRITICAL | ERROR | WARNING | NOTICE | INFO | DEBUG
  deriving DecidableEq

/-- An `*os.File`: standard error, or the descriptor `os.OpenFile` returned for a path. -/
inductive File where
  | stderr
  | file (path : String) (fd : Nat)
  deriving DecidableEq

/-- A leveled log backend (`logging.AddModuleLevel` over a formatter over
`logging.NewLogBackend(out, "", 0)`), with the level set for the module `""`. -/
structure Backend where
  out : File
  level : Level
  deriving DecidableEq

/-- The package-level variables of the program that are assigned or read at run time,
and the backend list installed in the `logging` package. -/
structure Globals where
  flags : SurveillanceFlags
  userToken : String
  appToken : String
  backends : List Backend

/-- An `MQTT.Message`, as far as the program reads it: `Topic()` and `Payload()`. -/
structure Message where
  topic : String
  payload : List UInt8

/-- An `MQTT.Token`, as far as the program reads it: the results of `Wait()` and `Error()`. -/
structure Token where
  wait : Bool
  error : Option GoError

/-- One call `app.SendMessage(message, recipient)` with `app = pushover.New(appToken)`,
`recipient = pushover.NewRecipient(userToken)` and `message = pushover.NewMessage(body)`. -/
structure Delivery where
  appToken : String
  userToken : String
  body : String
  deriving DecidableEq

/-- An argument handed to a logging call. -/
inductive LogArg where
  | text (s : String)
  | raw (b : List UInt8)
  | map (m : GoMap)
  | err (e : GoError)
  | flags (f : SurveillanceFlags)

/-- The observable calls of the program, in program order. -/
inductive Event where
  | log (level : Level) (args : List LogArg)
  | sendMessage (d : Delivery)
  | subscribe (topic : String) (qos : Nat)
  | println (e : GoError)
  | openFile (name : String)
  | setBackend (backends : List Backend)
  | hostname
  | addBroker (url : String)
  | setClientID (id : String)
  | setDefaultPublishHandler
  | setAutoReconnect (b : Bool)
  | setCleanSession (b : Bool)
  | setOnConnectHandler
  | connect
  | signalNotify

/-- The value a goroutine panics with. -/
inductive PanicValue where
  | error (e : GoError)
  | typeAssertion (dynamicType : String)
  deriving DecidableEq

/-- How a function ends: it returns, it panics (nothing in the program recovers, so
the process dies), or it calls `os.Exit`. -/
inductive Outcome where
  | returned
  | panicked (v : PanicValue)
  | exited (code : Int)
  deriving DecidableEq

/-- The result of running a function: the calls made, how it ended, and the
package-level variables afterwards. -/
structure Run where
  trace : List Event
  outcome : Outcome
  globals : Globals

/-- The answers of the libraries and of the operating system. -/
structure World where
  /-- The error of `json.Unmarshal(payload, &message)`, or the decoded map. -/
  jsonUnmarshal : List UInt8 → Except GoError GoMap
  /-- The error returned by `app.SendMessage`, `none` for `nil`. -/
  sendMessage : Delivery → Option GoError
  /-- The result of `os.Hostname()`. -/
  hostname : Except GoError String
  /-- The result of `os.OpenFile(name, O_RDWR|O_CREATE|O_APPEND, ModePerm)`. -/
  openFile : String → Except GoError Nat
  /-- The token of `client.Subscribe(topic, qos, nil)`. -/
  subscribe : String → Nat → Token
  /-- The token of `c.Connect()`. -/
  connect : Token
  /-- The outcome of `flag.Parse()` on the command line, from the registered defaults:
  the flag values, or the exit status when the `flag` package ends the process. -/
  flagParse : SurveillanceFlags → Except Int SurveillanceFlags

/-- The dynamic type of a decoded value, as the runtime names it. -/
def Value.typeName : Value → String
  | .null => "nil"
  | .bool _ => "bool"
  | .number _ => "float64"
  | .str _ => "string"
  | .arr _ => "[]interface {}"
  | .obj _ => "map[string]interface {}"

/-- Sequencing: `k` runs after `r` only when `r` returned. -/
def Run.andThen (r : Run) (k : Globals → Run) : Run :=
  match r.outcome with
  | .returned => { trace := r.trace ++ (k r.globals).trace, outcome := (k r.globals).outcome,
                   globals := (k r.globals).globals }
  | _ => r

/-! ## The functions of the program -/

/-- The function `InitFlags`: the five flags with their defaults, then `flag.Parse()`. -/
def InitFlags (w : World) : Except Int SurveillanceFlags :=
  w.flagParse { hostname := "localhost", port := 1883, topic := "/surveillance/notification/#",
                verbose := false, logfile := "stderr" }

/-- The loop of `Init` over `outfile`: one leveled backend per file, at `INFO` unless
`flags.verbose`, in which case a line is logged and the level is `DEBUG`. -/
def Init.loop (verbose : Bool) : List File → List Event × List Backend → List Event × List Backend
  | [], acc => acc
  | f :: rest, (trace, backends) =>
    if verbose == false then
      Init.loop verbose rest (trace, backends ++ [{ out := f, level := .INFO }])
    else
      Init.loop verbose rest (trace ++ [.log .INFO [.text "Enabling verbose logging"]],
        backends ++ [{ out := f, level := .DEBUG }])

/-- The function `Init`. -/
def Init (w : World) (g : Globals) : Run :=
  let opened : List Event × List File :=
    if g.flags.logfile != "stderr" then
      match w.openFile g.flags.logfile with
      | .error err => ([.openFile g.flags.logfile, .log .ERROR [.err err]], [])
      | .ok fd => ([.openFile g.flags.logfile], [.file g.flags.logfile fd])
    else ([], [])
  let outfile := File.stderr :: opened.2
  let looped := Init.loop g.flags.verbose outfile ([], [])
  { trace := opened.1 ++ looped.1 ++ [.setBackend looped.2],
    outcome := .returned,
    globals := { g with backends := looped.2 } }

/-- The function `OnConnect`. -/
def OnConnect (w : World) (g : Globals) : Run :=
  let token := w.subscribe g.flags.topic 1
  let trace := [Event.log .INFO [.text "Subscribing to ", .text g.flags.topic],
                Event.subscribe g.flags.topic 1]
  match token.wait with
  | true =>
    match token.error with
    | some err => { trace := trace ++ [.println err], outcome := .exited 1, globals := g }
    | none => { trace := trace, outcome := .returned, globals := g }
  | false => { trace := trace, outcome := .returned, globals := g }

/-- The handler `OnMessage`. -/
def OnMessage (w : World) (g : Globals) (msg : Message) : Run :=
  let trace := [Event.log .DEBUG [.text "TOPIC:", .text msg.topic],
                Event.log .DEBUG [.text "MSG:", .raw msg.payload]]
  match w.jsonUnmarshal msg.payload with
  | .error err => { trace := trace, outcome := .panicked (.error err), globals := g }
  | .ok message =>
    match message.index "notification" with
    | some k =>
      match k with
      | .str body =>
        let d : Delivery := { appToken := g.appToken, userToken := g.userToken, body := body }
        let trace := trace ++ [.log .DEBUG [.text "Sending notification:", .text body],
                               .sendMessage d]
        match w.sendMessage d with
        | some err => { trace := trace ++ [.log .ERROR [.err err]], outcome := .returned, globals := g }
        | none => { trace := trace, outcome := .returned, globals := g }
      | v => { trace := trace, outcome := .panicked (.typeAssertion v.typeName), globals := g }
    | none =>
      { trace := trace ++ [.log .DEBUG [.text "Error parsing message as notification :", .map message]],
        outcome := .returned, globals := g }

/-- The function `SetupMQTT`. -/
def SetupMQTT (w : World) (g : Globals) : Run :=
  let url := "tcp://" ++ g.flags.hostname ++ ":" ++ toString g.flags.port
  let named : List Event × String :=
    match w.hostname with
    | .error err => ([.hostname, .log .ERROR [.err err]], "surveillance-notify-")
    | .ok host => ([.hostname], "surveillance-notify-" ++ host)
  let trace := [Event.addBroker url] ++ named.1 ++
    [.setClientID named.2, .setDefaultPublishHandler, .setAutoReconnect true,
     .setCleanSession true, .setOnConnectHandler,
     .log .INFO [.text "Connecting to ", .text url], .connect]
  let done : Run :=
    { trace := trace ++ [.log .INFO [.text "Done setting up MQTT"]], outcome := .returned,
      globals := g }
  match w.connect.wait with
  | true =>
    match w.connect.error with
    | some err => { trace := trace, outcome := .panicked (.error err), globals := g }
    | none => done
  | false => done

/-- The function `main` up to the point where it blocks on `<-messages`: nothing ever
sends on that channel. -/
def main (w : World) (g : Globals) : Run :=
  match InitFlags w with
  | .error code => { trace := [], outcome := .exited code, globals := g }
  | .ok parsed =>
    let g1 : Globals := { g with flags := parsed }
    let started : Run :=
      { trace := [.log .DEBUG [.text "Starting with parameters : ", .flags g1.flags]],
        outcome := .returned, globals := g1 }
    started.andThen fun g2 => (Init w g2).andThen fun g3 => (SetupMQTT w g3).andThen fun g4 =>
      { trace := [.signalNotify], outcome := .returned, globals := g4 }

/-! ## Observations on traces -/

/-- The delivery calls of a trace, in order. -/
def deliveries : List Event → List Delivery
  | [] => []
  | .sendMessage d :: rest => d :: deliveries rest
  | _ :: rest => deliveries rest

/-- The argument lists of the log calls made at level `lvl`, in order. -/
def logsAt (lvl : Level) : List Event → List (List LogArg)
  | [] => []
  | .log l args :: rest => if l = lvl then args :: logsAt lvl rest else logsAt lvl rest
  | _ :: rest => logsAt lvl rest

/-- The log entries that record a message that could not be parsed as a notification
(line 98 of the source), in order. -/
def parseFailureLogs : List Event → List Event
  | [] => []
  | .log l (.text "Error parsing message as notification :" :: args) :: rest =>
    .log l (.text "Error parsing message as notification :" :: args) :: parseFailureLogs rest
  | _ :: rest => parseFailureLogs rest

/-- The subscribe requests of a trace: topic and quality of service, in order. -/
def subscriptions : List Event → List (String × Nat)
  | [] => []
  | .subscribe topic qos :: rest => (topic, qos) :: subscriptions rest
  | _ :: rest => subscriptions rest

/-- The client identities set (`opts.SetClientID`) in a trace, in order. -/
def clientIDs : List Event → List String
  | [] => []
  | .setClientID id :: rest => id :: clientIDs rest
  | _ :: rest => clientIDs rest

/-! ## Executions of the process -/

/-- Where the process stands: `main` has not run yet, the process runs, or it has ended
(panic or `os.Exit`). -/
inductive Phase where
  | initial | running | ended
  deriving DecidableEq

/-- The state of the process: the package-level variables, the calls made so far, and
the phase. -/
structure ProgState where
  globals : Globals
  trace : List Event
  phase : Phase

/-- The package-level variables as initialised at lines 16 to 22, with the backend that
the `logging` package installs when it is loaded (standard error at `DEBUG`). -/
def initialGlobals : Globals :=
  { flags := { hostname := "", port := 0, topic := "", verbose := false, logfile := "" },
    userToken := "",
    appToken := "",
    backends := [{ out := .stderr, level := .DEBUG }] }

/-- The state in which `main` is entered. -/
def initialState : ProgState :=
  { globals := initialGlobals, trace := [], phase := .initial }

/-- The state after a function has run in state `s`. -/
def ProgState.after (s : ProgState) (r : Run) : ProgState :=
  { globals := r.globals,
    trace := s.trace ++ r.trace,
    phase := if r.outcome = .returned then .running else .ended }

/-- One step of the process: `main` runs once; while the process has not ended, a hang-up
signal runs `Init`, the MQTT client runs `OnConnect` on every (re)connect and `OnMessage`
on every message.  Every step may meet any answers of the outside world.  The handlers
are allowed at any time before the process ends, which covers the calls the MQTT client
makes while `main` is still inside `SetupMQTT`. -/
inductive Step : ProgState → ProgState → Prop where
  | main (w : World) (s : ProgState) : s.phase = .initial → Step s (s.after (main w s.globals))
  | sighup (w : World) (s : ProgState) : s.phase ≠ .ended →
      Step s { s.after (Init w s.globals) with phase := s.phase }
  | connect (w : World) (s : ProgState) : s.phase ≠ .ended →
      Step s { s.after (OnConnect w s.globals) with
        phase := if (OnConnect w s.globals).outcome = .returned then s.phase else .ended }
  | message (w : World) (s : ProgState) (msg : Message) : s.phase ≠ .ended →
      Step s { s.after (OnMessage w s.globals msg) with
        phase := if (OnMessage w s.globals msg).outcome = .returned then s.phase else .ended }

/-- The states of the executions that start from `main`. -/
inductive Reachable : ProgState → Prop where
  | start : Reachable initialState
  | step {s t : ProgState} : Reachable s → Step s t → Reachable t

/-! ## Sample inputs -/

/-- A world in which every outside call succeeds; JSON is decoded by the reference model. -/
def calmWorld : World :=
  { jsonUnmarshal := Json.unmarshal,
    sendMessage := fun _ => none,
    hostname := .ok "cam-gateway",
    openFile := fun _ => .ok 3,
    subscribe := fun _ _ => { wait := true, error := none },
    connect := { wait := true, error := none },
    flagParse := fun defaults => .ok defaults }

/-- A world in which every outside call fails; JSON is decoded by the reference model. -/
def roughWorld : World :=
  { jsonUnmarshal := Json.unmarshal,
    sendMessage := fun _ => some (.other "delivery refused"),
    hostname := .error (.other "hostname unavailable"),
    openFile := fun _ => .error (.other "permission denied"),
    subscribe := fun _ _ => { wait := true, error := some (.other "not connected") },
    connect := { wait := true, error := some (.other "connection refused") },
    flagParse := fun defaults => .ok { defaults with verbose := true, logfile := "/var/log/notify.log" } }

/-- The package-level variables after `InitFlags` met an empty command line. -/
def defaultGlobals : Globals :=
  { initialGlobals with
    flags := { hostname := "localhost", port := 1883, topic := "/surveillance/notification/#",
               verbose := false, logfile := "stderr" } }

/-- The message `{"notification": "Camera 3 motion detected"}`. -/
def motionMessage : Message :=
  { topic := "/surveillance/notification/cam3",
    payload := bytes "\x7b\"notification\": \"Camera 3 motion detected\"\x7d" }

/-- The message `{"status": "ok"}`. -/
def statusMessage : Message :=
  { topic := "/surveillance/notification/cam3",
    payload := bytes "\x7b\"status\": \"ok\"\x7d" }

/-- The message `not-json`. -/
def garbledMessage : Message :=
  { topic := "/surveillance/notification/cam3", payload := bytes "not-json" }

/-- The message `{"notification": 5}`. -/
def numericMessage : Message :=
  { topic := "/surveillance/notification/cam3",
    payload := bytes "\x7b\"notification\": 5\x7d" }

/-- The message `{"notification": "x", "n": 1e999}`: a JSON object with a string under
`notification` and a number outside the `float64` range under `n`. -/
def overflowMessage : Message :=
  { topic := "/surveillance/notification/cam3",
    payload := bytes "\x7b\"notification\": \"x\", \"n\": 1e999\x7d" }

/-- The message `{"status": 1e999}`: a JSON object without the key `notification`,
holding a number outside the `float64` range. -/
def overflowStatusMessage : Message :=
  { topic := "/surveillance/notification/cam3",
    payload := bytes "\x7b\"status\": 1e999\x7d" }

/-- The message `{"notification": ""}`. -/
def blankMessage : Message :=
  { topic := "/surveillance/notification/cam3",
    payload := bytes "\x7b\"notification\": \"\"\x7d" }

/-- The package-level variables after `InitFlags` met `-v -l /var/log/notify.log`. -/
def fileGlobals : Globals :=
  { initialGlobals with
    flags := { hostname := "localhost", port := 1883, topic := "/surveillance/notification/#",
               verbose := true, logfile := "/var/log/notify.log" } }

/-- The state after `main` has started up in the calm world. -/
def startedState : ProgState :=
  initialState.after (main calmWorld initialState.globals)

/-- The state after `main` has started up in the calm world and the message
`{"notification": "Camera 3 motion detected"}` has been handled. -/
def notifiedState : ProgState :=
  { startedState.after (OnMessage calmWorld startedState.globals motionMessage) with
    phase := if (OnMessage calmWorld startedState.globals motionMessage).outcome = .returned
      then startedState.phase else .ended }

/-- A function that leaves `appToken` and `userToken` as they are and makes delivery
calls with these two values only. -/
def KeepsTokens (f : Globals → Run) : Prop :=
  ∀ g, (f g).globals.appToken = g.appToken ∧ (f g).globals.userToken = g.userToken ∧
    ∀ d ∈ deliveries (f g).trace, d.appToken = g.appToken ∧ d.userToken = g.userToken

/-! ## The message handler -/

/-- Counterexample to C1: the payload `{"notification": "x", "n": 1e999}` is a well-formed
JSON object whose key `notification` holds the string `x`, but its number under `n` is
outside the `float64` range; `json.Unmarshal` reports an error, `OnMessage` panics with
it and makes no delivery call. -/
theorem onMessage_overflow_field_no_delivery :
    Json.parse overflowMessage.payload
        = some (.obj [("notification", .str "x"), ("n", .number "1e999")], false) ∧
      GoMap.index [("notification", .str "x"), ("n", .number "1e999")] "notification"
        = some (.str "x") ∧
      (OnMessage calmWorld defaultGlobals overflowMessage).outcome
        = .panicked (.error .jsonUnmarshalTypeError) ∧
      deliveries (OnMessage calmWorld defaultGlobals overflowMessage).trace = [] :=
  ⟨rfl, rfl, by decide, by decide⟩

/-- C1, amended: when `json.Unmarshal` decodes the payload without error into a map whose
key `notification` holds the string `s`, `OnMessage` makes exactly one `SendMessage` call,
and the message body of that call is `s` itself. -/
theorem onMessage_delivers_notification (w : World) (g : Globals) (msg : Message)
    (m : GoMap) (s : String)
    (hdec : w.jsonUnmarshal msg.payload = .ok m)
    (hkey : m.index "notification" = some (.str s)) :
    deliveries (OnMessage w g msg).trace
      = [{ appToken := g.appToken, userToken := g.userToken, body := s }] := by
  unfold OnMessage
  simp only [hdec, hkey]
  cases w.sendMessage { appToken := g.appToken, userToken := g.userToken, body := s } <;>
    simp [deliveries]

/-- Witness of the amended C1: the payload `{"notification": "Camera 3 motion detected"}` decodes to a
map with that string under `notification`, and the single delivery call carries it. -/
theorem onMessage_delivers_notification_witness :
    calmWorld.jsonUnmarshal motionMessage.payload
        = .ok [("notification", .str "Camera 3 motion detected")] ∧
      GoMap.index [("notification", .str "Camera 3 motion detected")] "notification"
        = some (.str "Camera 3 motion detected") ∧
      deliveries (OnMessage calmWorld defaultGlobals motionMessage).trace
        = [{ appToken := "", userToken := "", body := "Camera 3 motion detected" }] :=
  ⟨rfl, rfl,
    onMessage_delivers_notification calmWorld defaultGlobals motionMessage
      [("notification", .str "Camera 3 motion detected")] "Camera 3 motion detected" rfl rfl⟩

/-- Counterexample to C2: the payload `not-json` is rejected by the decoder with a syntax
error, and `OnMessage` does not return normally on it. -/
theorem onMessage_garbled_does_not_return :
    calmWorld.jsonUnmarshal garbledMessage.payload = .error .jsonSyntaxError ∧
      (OnMessage calmWorld defaultGlobals garbledMessage).outcome ≠ .returned :=
  ⟨rfl, by decide⟩

/-- C2, amended: when `json.Unmarshal` reports an error for the payload, `OnMessage` makes
no delivery call and panics with that error, after the two debug lines for topic and
payload. -/
theorem onMessage_decode_error_panics (w : World) (g : Globals) (msg : Message)
    (err : GoError) (hdec : w.jsonUnmarshal msg.payload = .error err) :
    (OnMessage w g msg).outcome = .panicked (.error err) ∧
      deliveries (OnMessage w g msg).trace = [] ∧
      (OnMessage w g msg).trace
        = [.log .DEBUG [.text "TOPIC:", .text msg.topic],
           .log .DEBUG [.text "MSG:", .raw msg.payload]] := by
  unfold OnMessage
  simp only [hdec]
  simp [deliveries]

/-- Witness of the amended C2 on the payload `not-json`. -/
theorem onMessage_decode_error_panics_witness :
    calmWorld.jsonUnmarshal garbledMessage.payload = .error .jsonSyntaxError ∧
      (OnMessage calmWorld defaultGlobals garbledMessage).outcome
        = .panicked (.error .jsonSyntaxError) ∧
      deliveries (OnMessage calmWorld defaultGlobals garbledMessage).trace = [] :=
  ⟨rfl,
    (onMessage_decode_error_panics calmWorld defaultGlobals garbledMessage .jsonSyntaxError rfl).1,
    (onMessage_decode_error_panics calmWorld defaultGlobals garbledMessage .jsonSyntaxError rfl).2.1⟩

/-- C3 at the payload `{"notification": 5}`: the key is present with the number 5, the
type assertion `k.(string)` panics, and no delivery call is made. -/
theorem onMessage_numeric_notification_panics :
    calmWorld.jsonUnmarshal numericMessage.payload = .ok [("notification", .number "5")] ∧
      (OnMessage calmWorld defaultGlobals numericMessage).outcome
        = .panicked (.typeAssertion "float64") ∧
      deliveries (OnMessage calmWorld defaultGlobals numericMessage).trace = [] :=
  ⟨rfl, by decide, by decide⟩

/-- Counterexample to C4: the payload `{"status": 1e999}` is a well-formed JSON object
without the key `notification`, but its number is outside the `float64` range;
`json.Unmarshal` reports an error and `OnMessage` panics with it: it does not return
normally and logs no entry for a message that could not be parsed. -/
theorem onMessage_overflow_status_panics :
    Json.parse overflowStatusMessage.payload
        = some (.obj [("status", .number "1e999")], false) ∧
      GoMap.index [("status", .number "1e999")] "notification" = none ∧
      (OnMessage calmWorld defaultGlobals overflowStatusMessage).outcome
        = .panicked (.error .jsonUnmarshalTypeError) ∧
      parseFailureLogs (OnMessage calmWorld defaultGlobals overflowStatusMessage).trace = [] :=
  ⟨rfl, rfl, by decide, rfl⟩

/-- C4, amended: when `json.Unmarshal` decodes the payload without error into a map that
has no key `notification`, `OnMessage` makes no delivery call, logs exactly one entry recording that the message
could not be parsed as a notification (at debug level, with the decoded map), and
returns normally. -/
theorem onMessage_missing_key_logged (w : World) (g : Globals) (msg : Message) (m : GoMap)
    (hdec : w.jsonUnmarshal msg.payload = .ok m)
    (hkey : m.index "notification" = none) :
    deliveries (OnMessage w g msg).trace = [] ∧
      parseFailureLogs (OnMessage w g msg).trace
        = [.log .DEBUG [.text "Error parsing message as notification :", .map m]] ∧
      (OnMessage w g msg).outcome = .returned := by
  unfold OnMessage
  simp only [hdec, hkey]
  simp [deliveries, parseFailureLogs]

/-- Witness of the amended C4 on the payload `{"status": "ok"}`. -/
theorem onMessage_missing_key_logged_witness :
    calmWorld.jsonUnmarshal statusMessage.payload = .ok [("status", .str "ok")] ∧
      GoMap.index [("status", .str "ok")] "notification" = none ∧
      deliveries (OnMessage calmWorld defaultGlobals statusMessage).trace = [] ∧
      parseFailureLogs (OnMessage calmWorld defaultGlobals statusMessage).trace
        = [.log .DEBUG [.text "Error parsing message as notification :",
            .map [("status", .str "ok")]]] ∧
      (OnMessage calmWorld defaultGlobals statusMessage).outcome = .returned :=
  ⟨rfl, rfl,
    onMessage_missing_key_logged calmWorld defaultGlobals statusMessage [("status", .str "ok")]
      rfl rfl⟩

/-- Counterexample to C5: on the payload `{"notification": ""}` a delivery call is made
whose message body is the empty string. -/
theorem onMessage_blank_body_delivered :
    ¬ ∀ d ∈ deliveries (OnMessage calmWorld defaultGlobals blankMessage).trace, d.body ≠ "" := by
  decide

/-- C5, amended: the message body of every delivery call made by `OnMessage` is the string
that the decoded payload holds under the key `notification`, whether empty or not. -/
theorem onMessage_body_is_notification (w : World) (g : Globals) (msg : Message)
    (d : Delivery) (hd : d ∈ deliveries (OnMessage w g msg).trace) :
    ∃ m, w.jsonUnmarshal msg.payload = .ok m ∧ m.index "notification" = some (.str d.body) := by
  unfold OnMessage at hd
  cases hdec : w.jsonUnmarshal msg.payload with
  | error err => simp [hdec, deliveries] at hd
  | ok m =>
    refine ⟨m, rfl, ?_⟩
    cases hkey : m.index "notification" with
    | none => simp [hdec, hkey, deliveries] at hd
    | some k =>
      cases k with
      | str body =>
        simp only [hdec, hkey] at hd
        cases hsend : w.sendMessage { appToken := g.appToken, userToken := g.userToken, body := body } <;>
          simp [hsend, deliveries] at hd <;> simp [hd]
      | null => simp [hdec, hkey, deliveries] at hd
      | bool b => simp [hdec, hkey, deliveries] at hd
      | number lit => simp [hdec, hkey, deliveries] at hd
      | arr xs => simp [hdec, hkey, deliveries] at hd
      | obj kvs => simp [hdec, hkey, deliveries] at hd

/-- Witness of the amended C5 on the payload `{"notification": ""}`. -/
theorem onMessage_body_is_notification_witness :
    ({ appToken := "", userToken := "", body := "" } : Delivery)
        ∈ deliveries (OnMessage calmWorld defaultGlobals blankMessage).trace ∧
      ∃ m, calmWorld.jsonUnmarshal blankMessage.payload = .ok m ∧
        m.index "notification" = some (.str "") :=
  ⟨by decide,
    onMessage_body_is_notification calmWorld defaultGlobals blankMessage
      { appToken := "", userToken := "", body := "" } (by decide)⟩

/-- C6: when the payload decodes to a map with the string `s` under `notification`
and the delivery call returns the error `err`, `OnMessage` calls `SendMessage` exactly
once, logs `err` at error level (its only entry at that level), and returns normally. -/
theorem onMessage_delivery_error_logged (w : World) (g : Globals) (msg : Message)
    (m : GoMap) (s : String) (err : GoError)
    (hdec : w.jsonUnmarshal msg.payload = .ok m)
    (hkey : m.index "notification" = some (.str s))
    (hsend : w.sendMessage { appToken := g.appToken, userToken := g.userToken, body := s }
      = some err) :
    deliveries (OnMessage w g msg).trace
        = [{ appToken := g.appToken, userToken := g.userToken, body := s }] ∧
      logsAt .ERROR (OnMessage w g msg).trace = [[.err err]] ∧
      (OnMessage w g msg).outcome = .returned := by
  unfold OnMessage
  simp only [hdec, hkey, hsend]
  simp [deliveries, logsAt]

/-- Witness of C6: in a world where the delivery is refused, on the payload
`{"notification": "Camera 3 motion detected"}`. -/
theorem onMessage_delivery_error_logged_witness :
    roughWorld.jsonUnmarshal motionMessage.payload
        = .ok [("notification", .str "Camera 3 motion detected")] ∧
      roughWorld.sendMessage { appToken := "", userToken := "", body := "Camera 3 motion detected" }
        = some (.other "delivery refused") ∧
      deliveries (OnMessage roughWorld defaultGlobals motionMessage).trace
        = [{ appToken := "", userToken := "", body := "Camera 3 motion detected" }] ∧
      logsAt .ERROR (OnMessage roughWorld defaultGlobals motionMessage).trace
        = [[.err (.other "delivery refused")]] ∧
      (OnMessage roughWorld defaultGlobals motionMessage).outcome = .returned :=
  ⟨rfl, rfl,
    onMessage_delivery_error_logged roughWorld defaultGlobals motionMessage
      [("notification", .str "Camera 3 motion detected")] "Camera 3 motion detected"
      (.other "delivery refused") rfl rfl rfl⟩

/-! ## The connect handler -/

/-- C7: every run of `OnConnect` issues exactly one subscribe request, for `flags.topic`
at quality of service 1; when the request completes (`Wait()` is true) with an error the
process exits with status 1, which is not zero, and otherwise `OnConnect` returns. -/
theorem onConnect_subscribes_once (w : World) (g : Globals) :
    subscriptions (OnConnect w g).trace = [(g.flags.topic, 1)] ∧
      (∀ err, (w.subscribe g.flags.topic 1).wait = true →
        (w.subscribe g.flags.topic 1).error = some err →
        (OnConnect w g).outcome = .exited 1 ∧ (1 : Int) ≠ 0) ∧
      ((w.subscribe g.flags.topic 1).wait = false ∨ (w.subscribe g.flags.topic 1).error = none →
        (OnConnect w g).outcome = .returned) := by
  unfold OnConnect
  cases hw : (w.subscribe g.flags.topic 1).wait <;>
    cases he : (w.subscribe g.flags.topic 1).error <;>
    simp [hw, he, subscriptions]

/-- Witness of C7: a subscription that completes with an error ends the process with
status 1, a subscription that succeeds lets `OnConnect` return; each after one request
for the default topic. -/
theorem onConnect_subscribes_once_witness :
    subscriptions (OnConnect roughWorld defaultGlobals).trace
        = [("/surveillance/notification/#", 1)] ∧
      (OnConnect roughWorld defaultGlobals).outcome = .exited 1 ∧
      subscriptions (OnConnect calmWorld defaultGlobals).trace
        = [("/surveillance/notification/#", 1)] ∧
      (OnConnect calmWorld defaultGlobals).outcome = .returned :=
  ⟨(onConnect_subscribes_once roughWorld defaultGlobals).1,
    ((onConnect_subscribes_once roughWorld defaultGlobals).2.1 (.other "not connected") rfl rfl).1,
    (onConnect_subscribes_once calmWorld defaultGlobals).1,
    (onConnect_subscribes_once calmWorld defaultGlobals).2.2 (Or.inr rfl)⟩

/-! ## Setting up the MQTT client -/

/-- C8: `SetupMQTT` sets the client identity exactly once: to `surveillance-notify-`
followed by the host name when `os.Hostname` succeeds, and to `surveillance-notify-`
alone when it fails. -/
theorem setupMQTT_client_identity (w : World) (g : Globals) :
    (∀ host, w.hostname = .ok host →
        clientIDs (SetupMQTT w g).trace = ["surveillance-notify-" ++ host]) ∧
      (∀ err, w.hostname = .error err →
        clientIDs (SetupMQTT w g).trace = ["surveillance-notify-"]) := by
  constructor
  · intro host hh
    unfold SetupMQTT
    cases hw : w.connect.wait <;> cases he : w.connect.error <;> simp [hh, hw, he, clientIDs]
  · intro err hh
    unfold SetupMQTT
    cases hw : w.connect.wait <;> cases he : w.connect.error <;> simp [hh, hw, he, clientIDs]

/-- Witness of C8: with host name `cam-gateway` the identity is
`surveillance-notify-cam-gateway`; without a host name it is `surveillance-notify-`. -/
theorem setupMQTT_client_identity_witness :
    clientIDs (SetupMQTT calmWorld defaultGlobals).trace = ["surveillance-notify-cam-gateway"] ∧
      clientIDs (SetupMQTT roughWorld defaultGlobals).trace = ["surveillance-notify-"] :=
  ⟨(setupMQTT_client_identity calmWorld defaultGlobals).1 "cam-gateway" rfl,
    (setupMQTT_client_identity roughWorld defaultGlobals).2 (.other "hostname unavailable") rfl⟩

/-! ## Logging set-up -/

/-- The loop of `Init` adds one backend per file, in order, all at the level chosen by
`verbose`. -/
theorem Init.loop_backends (verbose : Bool) (files : List File) (acc : List Event × List Backend) :
    (Init.loop verbose files acc).2
      = acc.2 ++ files.map (fun f => { out := f, level := if verbose then .DEBUG else .INFO }) := by
  induction files generalizing acc with
  | nil => simp [Init.loop]
  | cons f rest ih =>
    obtain ⟨trace, backends⟩ := acc
    cases verbose <;> simp [Init.loop, ih]

/-- The loop of `Init` logs at `INFO` only. -/
theorem Init.loop_errors (verbose : Bool) (files : List File) (acc : List Event × List Backend) :
    logsAt .ERROR (Init.loop verbose files acc).1 = logsAt .ERROR acc.1 := by
  induction files generalizing acc with
  | nil => simp [Init.loop]
  | cons f rest ih =>
    obtain ⟨trace, backends⟩ := acc
    have happ : ∀ t : List Event,
        logsAt .ERROR (t ++ [.log .INFO [.text "Enabling verbose logging"]]) = logsAt .ERROR t := by
      intro t
      induction t with
      | nil => simp [logsAt]
      | cons e t iht => cases e <;> simp [logsAt, iht]
    cases verbose <;> simp [Init.loop, ih, happ]

/-- Log calls at level `lvl` distribute over concatenation of traces. -/
theorem logsAt_append (lvl : Level) (s t : List Event) :
    logsAt lvl (s ++ t) = logsAt lvl s ++ logsAt lvl t := by
  induction s with
  | nil => simp [logsAt]
  | cons e s ih =>
    cases e <;> simp [logsAt, ih]
    split <;> simp

/-- C9: `Init` always returns normally and installs (`logging.SetBackend`) the list it
leaves in the logging package.  With `flags.logfile` equal to `stderr` the list is the
one backend on standard error; otherwise, when `os.OpenFile` fails, the error is logged
at error level and the list is again that one backend, and when it succeeds the list is
standard error followed by the opened file.  Every backend of the list has level `DEBUG`
when `flags.verbose` is true and `INFO` otherwise. -/
theorem init_backends (w : World) (g : Globals) :
    (Init w g).outcome = .returned ∧
      (Init w g).trace.getLast? = some (.setBackend (Init w g).globals.backends) ∧
      (g.flags.logfile = "stderr" →
        (Init w g).globals.backends.map Backend.out = [.stderr]) ∧
      (∀ err, g.flags.logfile ≠ "stderr" → w.openFile g.flags.logfile = .error err →
        (Init w g).globals.backends.map Backend.out = [.stderr] ∧
        logsAt .ERROR (Init w g).trace = [[.err err]]) ∧
      (∀ fd, g.flags.logfile ≠ "stderr" → w.openFile g.flags.logfile = .ok fd →
        (Init w g).globals.backends.map Backend.out = [.stderr, .file g.flags.logfile fd]) ∧
      (∀ b ∈ (Init w g).globals.backends,
        b.level = if g.flags.verbose then .DEBUG else .INFO) := by
  refine ⟨rfl, ?_, ?_, ?_, ?_, ?_⟩
  · simp [Init]
  · intro h
    simp [Init, h, Init.loop_backends]
  · intro err hne hopen
    simp [Init, hne, hopen, Init.loop_backends, logsAt_append, Init.loop_errors, logsAt]
  · intro fd hne hopen
    simp [Init, hne, hopen, Init.loop_backends]
  · intro b hb
    simp only [Init, Init.loop_backends, List.nil_append, List.mem_map] at hb
    obtain ⟨f, -, rfl⟩ := hb
    rfl

/-- Witness of C9: a log file that cannot be opened leaves standard error alone and logs
the error; one that can be opened is added after standard error; `stderr` gives one
backend. -/
theorem init_backends_witness :
    ((Init roughWorld fileGlobals).globals.backends.map Backend.out = [.stderr] ∧
        logsAt .ERROR (Init roughWorld fileGlobals).trace = [[.err (.other "permission denied")]]) ∧
      (Init calmWorld fileGlobals).globals.backends.map Backend.out
        = [.stderr, .file "/var/log/notify.log" 3] ∧
      (Init calmWorld defaultGlobals).globals.backends.map Backend.out = [.stderr] ∧
      (Init calmWorld fileGlobals).globals.backends.map Backend.level = [.DEBUG, .DEBUG] ∧
      (Init calmWorld defaultGlobals).globals.backends.map Backend.level = [.INFO] :=
  ⟨(init_backends roughWorld fileGlobals).2.2.2.1 (.other "permission denied") (by decide) rfl,
    (init_backends calmWorld fileGlobals).2.2.2.2.1 3 (by decide) rfl,
    (init_backends calmWorld defaultGlobals).2.2.1 rfl,
    by decide, by decide⟩

/-! ## The tokens -/

/-- Delivery calls distribute over concatenation of traces. -/
theorem deliveries_append (s t : List Event) :
    deliveries (s ++ t) = deliveries s ++ deliveries t := by
  induction s with
  | nil => simp [deliveries]
  | cons e s ih => cases e <;> simp [deliveries, ih]

/-- The loop of `Init` makes no delivery call. -/
theorem Init.loop_deliveries (verbose : Bool) (files : List File)
    (acc : List Event × List Backend) :
    deliveries (Init.loop verbose files acc).1 = deliveries acc.1 := by
  induction files generalizing acc with
  | nil => simp [Init.loop]
  | cons f rest ih =>
    obtain ⟨trace, backends⟩ := acc
    cases verbose <;> simp [Init.loop, ih, deliveries_append, deliveries]

/-- `Init` assigns no token and makes no delivery call. -/
theorem init_keepsTokens (w : World) : KeepsTokens (Init w) := by
  intro g
  refine ⟨rfl, rfl, ?_⟩
  intro d hd
  have hnone : deliveries (Init w g).trace = [] := by
    unfold Init
    by_cases hl : g.flags.logfile = "stderr"
    · simp [hl, deliveries_append, Init.loop_deliveries, deliveries]
    · cases ho : w.openFile g.flags.logfile <;>
        simp [hl, ho, deliveries_append, Init.loop_deliveries, deliveries]
  simp [hnone] at hd

/-- `OnConnect` assigns no token and makes no delivery call. -/
theorem onConnect_keepsTokens (w : World) : KeepsTokens (OnConnect w) := by
  intro g
  unfold OnConnect
  cases hw : (w.subscribe g.flags.topic 1).wait <;>
    cases he : (w.subscribe g.flags.topic 1).error <;>
    simp [hw, he, deliveries]

/-- `SetupMQTT` assigns no token and makes no delivery call. -/
theorem setupMQTT_keepsTokens (w : World) : KeepsTokens (SetupMQTT w) := by
  intro g
  unfold SetupMQTT
  cases hh : w.hostname <;> cases hw : w.connect.wait <;> cases he : w.connect.error <;>
    simp [hh, hw, he, deliveries]

/-- `OnMessage` assigns no token, and its delivery call uses the two tokens. -/
theorem onMessage_keepsTokens (w : World) (msg : Message) :
    KeepsTokens (fun g => OnMessage w g msg) := by
  intro g
  simp only
  unfold OnMessage
  cases hdec : w.jsonUnmarshal msg.payload with
  | error err => simp [deliveries]
  | ok m =>
    cases hkey : m.index "notification" with
    | none => simp [hkey, deliveries]
    | some k =>
      cases k with
      | str body =>
        cases hsend : w.sendMessage { appToken := g.appToken, userToken := g.userToken, body := body } <;>
          simp [hkey, hsend, deliveries]
      | null => simp [hkey, deliveries]
      | bool b => simp [hkey, deliveries]
      | number lit => simp [hkey, deliveries]
      | arr xs => simp [hkey, deliveries]
      | obj kvs => simp [hkey, deliveries]

/-- Sequencing two functions that keep the tokens keeps the tokens. -/
theorem andThen_keepsTokens (f k : Globals → Run) (hf : KeepsTokens f) (hk : KeepsTokens k) :
    KeepsTokens (fun g => (f g).andThen k) := by
  intro g
  obtain ⟨ha, hu, hd⟩ := hf g
  obtain ⟨ha2, hu2, hd2⟩ := hk (f g).globals
  simp only [Run.andThen]
  cases ho : (f g).outcome with
  | returned =>
    refine ⟨by simp [ha2, ha], by simp [hu2, hu], ?_⟩
    intro d hmem
    simp only [deliveries_append, List.mem_append] at hmem
    rcases hmem with h | h
    · exact hd d h
    · have := hd2 d h
      exact ⟨this.1.trans ha, this.2.trans hu⟩
  | panicked v => exact ⟨ha, hu, hd⟩
  | exited code => exact ⟨ha, hu, hd⟩

/-- `main` assigns `flags` only, and makes no delivery call of its own. -/
theorem main_keepsTokens (w : World) : KeepsTokens (main w) := by
  intro g
  unfold main
  cases hf : InitFlags w with
  | error code => simp [deliveries]
  | ok parsed =>
    have hstart : KeepsTokens (fun g1 : Globals =>
        ({ trace := [.log .DEBUG [.text "Starting with parameters : ", .flags g1.flags]],
           outcome := .returned, globals := g1 } : Run)) := by
      intro g1
      simp [deliveries]
    have hnotify : KeepsTokens (fun g4 : Globals =>
        ({ trace := [.signalNotify], outcome := .returned, globals := g4 } : Run)) := by
      intro g4
      simp [deliveries]
    have hrest := andThen_keepsTokens _ _ hstart
      (andThen_keepsTokens _ _ (init_keepsTokens w)
        (andThen_keepsTokens _ _ (setupMQTT_keepsTokens w) hnotify))
    exact hrest { g with flags := parsed }

/-- A step that runs a token-keeping function on a state with empty tokens leaves a state
with empty tokens, whatever phase is recorded. -/
theorem after_tokens_empty (f : Globals → Run) (hf : KeepsTokens f) (s : ProgState) (p : Phase)
    (hs : s.globals.appToken = "" ∧ s.globals.userToken = "" ∧
      ∀ d ∈ deliveries s.trace, d.appToken = "" ∧ d.userToken = "") :
    ({ s.after (f s.globals) with phase := p } : ProgState).globals.appToken = "" ∧
      ({ s.after (f s.globals) with phase := p } : ProgState).globals.userToken = "" ∧
      ∀ d ∈ deliveries ({ s.after (f s.globals) with phase := p } : ProgState).trace,
        d.appToken = "" ∧ d.userToken = "" := by
  obtain ⟨ha, hu, hd⟩ := hf s.globals
  obtain ⟨sa, su, sd⟩ := hs
  refine ⟨by simp [ProgState.after, ha, sa], by simp [ProgState.after, hu, su], ?_⟩
  intro d hmem
  simp only [ProgState.after, deliveries_append, List.mem_append] at hmem
  rcases hmem with h | h
  · exact sd d h
  · have := hd d h
    exact ⟨this.1.trans sa, this.2.trans su⟩

/-- C10: in every state of an execution that starts from `main`, `appToken` and
`userToken` still hold the empty string they were initialised with, and every delivery
call made so far was made with the empty application token and the empty user token. -/
theorem tokens_stay_empty (s : ProgState) (h : Reachable s) :
    s.globals.appToken = "" ∧ s.globals.userToken = "" ∧
      ∀ d ∈ deliveries s.trace, d.appToken = "" ∧ d.userToken = "" := by
  induction h with
  | start => simp [initialState, initialGlobals, deliveries]
  | @step a b _ hstep ih =>
    cases hstep with
    | main w _ _ => exact after_tokens_empty (main w) (main_keepsTokens w) a _ ih
    | sighup w _ _ => exact after_tokens_empty (Init w) (init_keepsTokens w) a _ ih
    | connect w _ _ => exact after_tokens_empty (OnConnect w) (onConnect_keepsTokens w) a _ ih
    | message w _ msg _ =>
      exact after_tokens_empty (fun g => OnMessage w g msg) (onMessage_keepsTokens w msg) a _ ih

/-- Witness of C10: the state after start-up and one notification is reachable, holds one
delivery call, and that call was made with the two empty tokens. -/
theorem tokens_stay_empty_witness :
    Reachable notifiedState ∧
      deliveries notifiedState.trace
        = [{ appToken := "", userToken := "", body := "Camera 3 motion detected" }] ∧
      (notifiedState.globals.appToken = "" ∧ notifiedState.globals.userToken = "" ∧
        ∀ d ∈ deliveries notifiedState.trace, d.appToken = "" ∧ d.userToken = "") :=
  ⟨Reachable.step (Reachable.step Reachable.start (Step.main calmWorld initialState rfl))
      (Step.message calmWorld startedState motionMessage (by decide)),
    by decide,
    tokens_stay_empty notifiedState
      (Reachable.step (Reachable.step Reachable.start (Step.main calmWorld initialState rfl))
        (Step.message calmWorld startedState motionMessage (by decide)))⟩

end SurveillanceNotify
